import Mathlib

/-!
Verification of the finite-difference
derivative checkers (`src/utils/finite_difference_checks.py`) and its
empirical computational-complexity estimator
(`src/00_numerical_foundations/computational_complexity_model/implementation.py`).

Python floats are modelled as real numbers (exact arithmetic), numpy
vectors of length n as functions `Fin n → ℝ`, numpy complex arrays as
`Fin n → ℂ`, and Python exceptions as `Except` errors.  A Python callable
passed as `f` is duck-typed and may be evaluated at complex points (the
complex-step scheme does so), so it is modelled as `(Fin n → ℂ) → ℂ`;
evaluation at a real vector coerces the point and reads the real part of
the result, which is what the numpy assignment into a float64 array does.
Wall-clock timing is not embeddable, so the timing routine takes a
sampling oracle `(size, run index) ↦ elapsed time` in place of the
`time.perf_counter` measurements; everything downstream of the measured
times is translated from the source.
-/

set_option linter.unusedVariables false

noncomputable section

namespace NM

/-- Models `v = x.copy(); v[i] += d` on a float array. -/
def addAt {n : ℕ} (x : Fin n → ℝ) (i : Fin n) (d : ℝ) : Fin n → ℝ :=
  Function.update x i (x i + d)

/-- Models `v = x.copy(); v[i] += d` on a complex array. -/
def addAtC {n : ℕ} (x : Fin n → ℂ) (i : Fin n) (d : ℂ) : Fin n → ℂ :=
  Function.update x i (x i + d)

/-- Models `x.astype(complex)`. -/
def toC {n : ℕ} (x : Fin n → ℝ) : Fin n → ℂ := fun j => (x j : ℂ)

/-- Models np.linalg.norm of a vector: the Euclidean norm. -/
def euclNorm {n : ℕ} (v : Fin n → ℝ) : ℝ := Real.sqrt (∑ i, (v i) ^ 2)

/-- Models np.linalg.norm of a matrix with ord given as fro: the Frobenius norm. -/
def froNorm {n : ℕ} (A : Fin n → Fin n → ℝ) : ℝ := Real.sqrt (∑ i, ∑ j, (A i j) ^ 2)

/-- Error raised by `finite_difference_gradient` on an unknown method name
(`raise ValueError(f"Unknown method: {method}")`). -/
inductive FDErr where
  | unknownMethod (method : String)
deriving DecidableEq

/-- Signature default `epsilon : float = 1e-5` of `finite_difference_gradient`. -/
def finite_difference_gradient_default_epsilon : ℝ := 1e-5

/-- Signature default `epsilon : float = 1e-5` of `check_gradient`. -/
def check_gradient_default_epsilon : ℝ := 1e-5

/-- Signature default `tol : float = 1e-4` of `check_gradient`. -/
def check_gradient_default_tol : ℝ := 1e-4

/-- Signature default `epsilon : float = 1e-5` of `finite_difference_hessian`. -/
def finite_difference_hessian_default_epsilon : ℝ := 1e-5

/-- Signature default `epsilon : float = 1e-4` of `check_hessian`. -/
def check_hessian_default_epsilon : ℝ := 1e-4

/-- Signature default `tol : float = 1e-3` of `check_hessian`. -/
def check_hessian_default_tol : ℝ := 1e-3

/-- Translation of finite_difference_gradient: dispatches on the
method string; `forward` shares one base evaluation `f0 = f(x)`, `central`
uses two-sided differences, `complex` uses the imaginary perturbation. -/
def finite_difference_gradient {n : ℕ} (f : (Fin n → ℂ) → ℂ) (x : Fin n → ℝ)
    (epsilon : ℝ) (method : String) : Except FDErr (Fin n → ℝ) :=
  if method = "forward" then
    let f0 := f (toC x)
    .ok (fun i => ((f (toC (addAt x i epsilon)) - f0) / (epsilon : ℂ)).re)
  else if method = "central" then
    .ok (fun i =>
      ((f (toC (addAt x i epsilon)) - f (toC (addAt x i (-epsilon)))) /
        ((2 * epsilon : ℝ) : ℂ)).re)
  else if method = "complex" then
    .ok (fun i => (f (addAtC (toC x) i (Complex.I * (epsilon : ℂ)))).im / epsilon)
  else
    .error (.unknownMethod method)

/-- The points at which the `forward` branch evaluates `f`: the base point
once (`f0 = f(x)` before the loop), then `x` with coordinate i incremented
by ε for each i. -/
def forward_eval_points {n : ℕ} (x : Fin n → ℝ) (epsilon : ℝ) : List (Fin n → ℝ) :=
  x :: List.ofFn (fun i => addAt x i epsilon)

/-- Translation of check_gradient: compares the
analytic gradient against the finite-difference estimate; the relative error
falls back to the absolute difference norm when the analytic norm is zero;
`verbose` drives only the printed report. -/
def check_gradient {n : ℕ} (f : (Fin n → ℂ) → ℂ) (grad_f : (Fin n → ℝ) → Fin n → ℝ)
    (x : Fin n → ℝ) (epsilon tol : ℝ) (method : String) (verbose : Bool) :
    Except FDErr (Bool × ℝ) :=
  match finite_difference_gradient f x epsilon method with
  | .error e => .error e
  | .ok grad_numerical =>
    let grad_analytical := grad_f x
    let diff := fun i => grad_analytical i - grad_numerical i
    let norm_diff := euclNorm diff
    let norm_analytical := euclNorm grad_analytical
    let relative_error := if norm_analytical > 0 then norm_diff / norm_analytical else norm_diff
    let passed := if relative_error < tol then true else false
    .ok (passed, relative_error)

/-- Translation of finite_difference_hessian: central second differences on
the diagonal, the four-point mixed formula above the diagonal, mirrored below
(`H[j, i] = H[i, j]`). -/
def finite_difference_hessian {n : ℕ} (f : (Fin n → ℝ) → ℝ) (x : Fin n → ℝ)
    (epsilon : ℝ) : Fin n → Fin n → ℝ :=
  let f0 := f x
  let diag := fun i =>
    (f (addAt x i epsilon) - 2 * f0 + f (addAt x i (-epsilon))) / epsilon ^ 2
  let offd := fun i j =>
    (f (addAt (addAt x i epsilon) j epsilon) - f (addAt (addAt x i epsilon) j (-epsilon))
      - f (addAt (addAt x i (-epsilon)) j epsilon)
      + f (addAt (addAt x i (-epsilon)) j (-epsilon))) / (4 * epsilon ^ 2)
  fun i j => if i = j then diag i else if i < j then offd i j else offd j i

/-- Translation of check_hessian: Frobenius-norm
comparison with the same zero-reference fallback; `verbose` drives only the
printed report. -/
def check_hessian {n : ℕ} (f : (Fin n → ℝ) → ℝ) (hess_f : (Fin n → ℝ) → Fin n → Fin n → ℝ)
    (x : Fin n → ℝ) (epsilon tol : ℝ) (verbose : Bool) : Bool × ℝ :=
  let hess_analytical := hess_f x
  let hess_numerical := finite_difference_hessian f x epsilon
  let diff := fun i j => hess_analytical i j - hess_numerical i j
  let norm_diff := froNorm diff
  let norm_analytical := froNorm hess_analytical
  let relative_error := if norm_analytical > 0 then norm_diff / norm_analytical else norm_diff
  let passed := if relative_error < tol then true else false
  (passed, relative_error)

/-- Translation of gradient_consistency_check:
the random draws `np.random.randn(len(x))` are supplied by the oracle
`randn`; `np.max` of the empty variation list raises, modelled as `none`. -/
def gradient_consistency_check {n : ℕ} (grad_f : (Fin n → ℝ) → Fin n → ℝ)
    (x : Fin n → ℝ) (n_samples : ℕ) (epsilon : ℝ) (randn : ℕ → Fin n → ℝ)
    (verbose : Bool) : Option Bool :=
  let grad_base := grad_f x
  let variations := (List.range n_samples).map fun k =>
    euclNorm (fun i => grad_f (fun j => x j + epsilon * randn k j) i - grad_base i)
  match variations with
  | [] => none
  | v :: vs =>
    let max_variation := vs.foldl max v
    let expected_variation := epsilon * euclNorm grad_base
    some (if max_variation < 10 * expected_variation then true else false)

/-- Whether `needle` matches at the head of a character list. -/
def leadMatch : List Char → List Char → Bool
  | [], _ => true
  | _ :: _, [] => false
  | c :: cs, d :: ds => c = d && leadMatch cs ds

/-- Whether `needle` occurs contiguously somewhere in the list. -/
def containsSeq (needle : List Char) : List Char → Bool
  | [] => leadMatch needle []
  | d :: ds => leadMatch needle (d :: ds) || containsSeq needle ds

/-- Models the Python substring test `needle in hay` on strings. -/
def strContains (hay needle : String) : Bool := containsSeq needle.toList hay.toList

/-- Errors of the complexity model: `verify_complexity` raises
`ValueError(f"Cannot parse complexity: ...")` on an unrecognized
descriptor; `insufficientSamples` names the error kind the specification
assigns to a regression over fewer than two size/time pairs. -/
inductive CxErr where
  | unparsableComplexity (descriptor : String)
  | insufficientSamples
deriving DecidableEq

/-- The descriptor parsing at the top of `verify_complexity`:
presence of the substring "n^3" selects 3.0, else presence of "n^2"
selects 2.0, else presence of "n" with no "^" selects 1.0, else the call
raises. -/
def parse_expected_complexity (expected_complexity : String) : Except CxErr ℝ :=
  if strContains expected_complexity "n^3" then .ok 3.0
  else if strContains expected_complexity "n^2" then .ok 2.0
  else if strContains expected_complexity "n" && !strContains expected_complexity "^" then .ok 1.0
  else .error (.unparsableComplexity expected_complexity)

/-- Insert into a sorted list of reals, keeping it sorted. -/
def insertSorted (a : ℝ) : List ℝ → List ℝ
  | [] => [a]
  | b :: bs => if a ≤ b then a :: b :: bs else b :: insertSorted a bs

/-- Sort a list of reals ascending (modelling the numpy internal sort). -/
def sortReals (l : List ℝ) : List ℝ := l.foldr insertSorted []

/-- Models np.median: middle element of the sorted list, or the mean of the two
middle elements for even length. -/
def median (l : List ℝ) : ℝ :=
  let s := sortReals l
  if s.length % 2 = 1 then s.getD (s.length / 2) 0
  else (s.getD (s.length / 2 - 1) 0 + s.getD (s.length / 2) 0) / 2

/-- Models np.linalg.lstsq specialised to the two-column design matrix
`[1, u]` used by `estimate_complexity`: the least-squares solution
`(intercept, slope)` for the rows `(u_i, y_i)`, and the minimum-norm
solution when the system is rank-deficient (no rows, or all `u_i` equal,
which is exactly when the normal determinant vanishes). -/
def lstsq2 (data : List (ℝ × ℝ)) : ℝ × ℝ :=
  let m : ℝ := data.length
  let Su := (data.map Prod.fst).sum
  let Sy := (data.map Prod.snd).sum
  let Suu := (data.map fun p => p.1 ^ 2).sum
  let Suy := (data.map fun p => p.1 * p.2).sum
  let det := m * Suu - Su ^ 2
  if data.length = 0 then (0, 0)
  else if det = 0 then
    let L := (data.headD (0, 0)).1
    let ybar := Sy / m
    (ybar / (1 + L ^ 2), ybar * L / (1 + L ^ 2))
  else
    ((Suu * Sy - Su * Suy) / det, (m * Suy - Su * Sy) / det)

/-- Signature default `n_runs : int = 3` of `estimate_complexity`. -/
def estimate_complexity_default_n_runs : ℕ := 3

/-- Translation of estimate_complexity: the elapsed time
of run `r` at size `s` is supplied by the oracle `sample_time s r`; each
time of each size is the median over `n_runs` runs; the exponent is the slope of
the least-squares fit of `log(time)` against `log(size)`.  The codomain
can represent errors so that the absence of any raise in the source body is a
provable fact, not a typing accident. -/
def estimate_complexity (sizes : List ℕ) (sample_time : ℕ → ℕ → ℝ) (n_runs : ℕ) :
    Except CxErr (ℝ × List ℕ × List ℝ) :=
  let times := sizes.map fun size => median ((List.range n_runs).map fun r => sample_time size r)
  let log_sizes := sizes.map fun s => Real.log s
  let log_times := times.map Real.log
  let coeffs := lstsq2 (log_sizes.zip log_times)
  .ok (coeffs.2, sizes, times)

/-- Signature default `tolerance : float = 0.3` of `verify_complexity`. -/
def verify_complexity_default_tolerance : ℝ := 0.3

/-- Translation of verify_complexity:
parse the descriptor, estimate the empirical exponent (with the default
`n_runs = 3`), and compare `|actual − expected| < tolerance`. -/
def verify_complexity (sample_time : ℕ → ℕ → ℝ) (sizes : List ℕ)
    (expected_complexity : String) (tolerance : ℝ) : Except CxErr Bool :=
  match parse_expected_complexity expected_complexity with
  | .error e => .error e
  | .ok expected_exp =>
    match estimate_complexity sizes sample_time estimate_complexity_default_n_runs with
    | .error e => .error e
    | .ok (actual_exp, _, _) =>
      let deviation := |actual_exp - expected_exp|
      .ok (if deviation < tolerance then true else false)

theorem fdg_forward_eq {n : ℕ} (f : (Fin n → ℂ) → ℂ) (x : Fin n → ℝ) (epsilon : ℝ) :
    finite_difference_gradient f x epsilon "forward" =
      .ok (fun i => ((f (toC (addAt x i epsilon)) - f (toC x)) / (epsilon : ℂ)).re) := rfl

theorem fdg_central_eq {n : ℕ} (f : (Fin n → ℂ) → ℂ) (x : Fin n → ℝ) (epsilon : ℝ) :
    finite_difference_gradient f x epsilon "central" =
      .ok (fun i =>
        ((f (toC (addAt x i epsilon)) - f (toC (addAt x i (-epsilon)))) /
          ((2 * epsilon : ℝ) : ℂ)).re) := rfl

theorem fdg_complex_eq {n : ℕ} (f : (Fin n → ℂ) → ℂ) (x : Fin n → ℝ) (epsilon : ℝ) :
    finite_difference_gradient f x epsilon "complex" =
      .ok (fun i => (f (addAtC (toC x) i (Complex.I * (epsilon : ℂ)))).im / epsilon) := rfl

theorem euclNorm_zero_fun {n : ℕ} : euclNorm (fun _ : Fin n => (0 : ℝ)) = 0 := by
  simp [euclNorm]

theorem euclNorm_nonneg {n : ℕ} (v : Fin n → ℝ) : 0 ≤ euclNorm v := Real.sqrt_nonneg _

/-- Claim C2: for every scalar function f, point x of dimension n, and step
size ε, the matrix returned by finite_difference_hessian is exactly
symmetric: H[i][j] = H[j][i] for all i, j (the off-diagonal entry is
computed once for i < j and mirrored). -/
theorem C2_hessian_symmetric {n : ℕ} (f : (Fin n → ℝ) → ℝ) (x : Fin n → ℝ)
    (epsilon : ℝ) (i j : Fin n) :
    finite_difference_hessian f x epsilon i j = finite_difference_hessian f x epsilon j i := by
  rcases lt_trichotomy i j with h | h | h
  · simp [finite_difference_hessian, h, h.ne, h.ne', h.asymm]
  · simp [finite_difference_hessian, h]
  · simp [finite_difference_hessian, h, h.ne, h.ne', h.asymm]

/-- Claim C9: the structured (passed, relative_error) results of
check_gradient and check_hessian are identical whether verbose is true or
false; the textual report never changes the returned values. -/
theorem C9_verbose_independent {n m : ℕ} (f : (Fin n → ℂ) → ℂ)
    (grad_f : (Fin n → ℝ) → Fin n → ℝ) (x : Fin n → ℝ) (epsilon tol : ℝ) (method : String)
    (g : (Fin m → ℝ) → ℝ) (hess_f : (Fin m → ℝ) → Fin m → Fin m → ℝ) (y : Fin m → ℝ)
    (epsilon2 tol2 : ℝ) :
    check_gradient f grad_f x epsilon tol method true =
      check_gradient f grad_f x epsilon tol method false ∧
    check_hessian g hess_f y epsilon2 tol2 true =
      check_hessian g hess_f y epsilon2 tol2 false :=
  ⟨rfl, rfl⟩

/-- Claim C7: every method string outside {forward, central, complex} makes
finite_difference_gradient fail with the unknown-method error, and each of
the three recognized names produces a result, not an error. -/
theorem C7_invalid_scheme {n : ℕ} (f : (Fin n → ℂ) → ℂ) (x : Fin n → ℝ) (epsilon : ℝ)
    (method : String) (h1 : method ≠ "forward") (h2 : method ≠ "central")
    (h3 : method ≠ "complex") :
    finite_difference_gradient f x epsilon method = .error (.unknownMethod method) ∧
    (finite_difference_gradient f x epsilon "forward").isOk = true ∧
    (finite_difference_gradient f x epsilon "central").isOk = true ∧
    (finite_difference_gradient f x epsilon "complex").isOk = true := by
  refine ⟨?_, rfl, rfl, rfl⟩
  simp [finite_difference_gradient, h1, h2, h3]

theorem C7_witness :
    finite_difference_gradient (fun _ : Fin 1 → ℂ => 0) (fun _ => (0 : ℝ)) 1 "newton" =
      .error (.unknownMethod "newton") ∧
    (finite_difference_gradient (fun _ : Fin 1 → ℂ => 0) (fun _ => (0 : ℝ)) 1 "forward").isOk = true ∧
    (finite_difference_gradient (fun _ : Fin 1 → ℂ => 0) (fun _ => (0 : ℝ)) 1 "central").isOk = true ∧
    (finite_difference_gradient (fun _ : Fin 1 → ℂ => 0) (fun _ => (0 : ℝ)) 1 "complex").isOk = true :=
  C7_invalid_scheme _ _ _ "newton" (by decide) (by decide) (by decide)

/-- Claim C5: the descriptor parsing of verify_complexity: presence of "n^3"
selects expected exponent 3, otherwise "n^2" selects 2, otherwise a bare
"n" with no caret selects 1, and any descriptor matching none of these
patterns makes verify_complexity fail with the unparsable-complexity
error. -/
theorem C5_parse_expected (s : String) (sample_time : ℕ → ℕ → ℝ) (sizes : List ℕ)
    (tolerance : ℝ) :
    (strContains s "n^3" = true → parse_expected_complexity s = .ok 3.0) ∧
    (strContains s "n^3" = false → strContains s "n^2" = true →
      parse_expected_complexity s = .ok 2.0) ∧
    (strContains s "n^3" = false → strContains s "n^2" = false →
      strContains s "n" = true → strContains s "^" = false →
      parse_expected_complexity s = .ok 1.0) ∧
    (strContains s "n^3" = false → strContains s "n^2" = false →
      (strContains s "n" = false ∨ strContains s "^" = true) →
      verify_complexity sample_time sizes s tolerance = .error (.unparsableComplexity s)) := by
  refine ⟨fun h3 => ?_, fun h3 h2 => ?_, fun h3 h2 hn hc => ?_, fun h3 h2 hbad => ?_⟩
  · simp [parse_expected_complexity, h3]
  · simp [parse_expected_complexity, h3, h2]
  · simp [parse_expected_complexity, h3, h2, hn, hc]
  · have hp : parse_expected_complexity s = .error (.unparsableComplexity s) := by
      rcases hbad with hn | hc
      · simp [parse_expected_complexity, h3, h2, hn]
      · simp [parse_expected_complexity, h3, h2, hc]
    simp [verify_complexity, hp]

theorem C5_witness :
    verify_complexity (fun _ _ => 1) [] "m" 0.3 = .error (.unparsableComplexity "m") ∧
    parse_expected_complexity "n^3" = .ok 3.0 ∧
    parse_expected_complexity "O(n^2)" = .ok 2.0 ∧
    parse_expected_complexity "n" = .ok 1.0 :=
  ⟨(C5_parse_expected "m" (fun _ _ => 1) [] 0.3).2.2.2 (by decide) (by decide)
      (Or.inl (by decide)),
    (C5_parse_expected "n^3" (fun _ _ => 1) [] 0.3).1 (by decide),
    (C5_parse_expected "O(n^2)" (fun _ _ => 1) [] 0.3).2.1 (by decide) (by decide),
    (C5_parse_expected "n" (fun _ _ => 1) [] 0.3).2.2.1 (by decide) (by decide) (by decide)
      (by decide)⟩

/-- Claim C4, amended: the default step size is 1e-5 for
finite_difference_gradient and check_gradient; the check_hessian default is
1e-4, but the finite_difference_hessian signature default is 1e-5, not
1e-4, so a direct Hessian-estimate call without an explicit ε uses 1e-5. -/
theorem C4_default_step_sizes :
    finite_difference_gradient_default_epsilon = 1e-5 ∧
    check_gradient_default_epsilon = 1e-5 ∧
    check_hessian_default_epsilon = 1e-4 ∧
    finite_difference_hessian_default_epsilon = 1e-5 ∧
    finite_difference_hessian_default_epsilon ≠ check_hessian_default_epsilon := by
  refine ⟨rfl, rfl, rfl, rfl, ?_⟩
  norm_num [finite_difference_hessian_default_epsilon, check_hessian_default_epsilon]

/-- Claim C4 fails as stated: the finite_difference_hessian signature default
is 1e-5, and at f(x) = x₁⁴, x = 0 the Hessian estimate computed with the
signature default differs from the one computed with ε = 1e-4. -/
theorem C4_counterexample :
    finite_difference_hessian (fun v => (v 0) ^ 4) (fun _ : Fin 1 => (0 : ℝ))
        finite_difference_hessian_default_epsilon 0 0 ≠
      finite_difference_hessian (fun v => (v 0) ^ 4) (fun _ : Fin 1 => (0 : ℝ)) 1e-4 0 0 := by
  simp only [finite_difference_hessian, finite_difference_hessian_default_epsilon, addAt,
    Function.update_same, if_pos rfl]
  norm_num

theorem toC_addAt {n : ℕ} (x : Fin n → ℝ) (i : Fin n) (d : ℝ) :
    toC (addAt x i d) = fun j => ((x j + if j = i then d else 0 : ℝ) : ℂ) := by
  funext j
  by_cases hj : j = i
  · subst hj; simp [toC, addAt]
  · simp [toC, addAt, Function.update_noteq hj, hj]

theorem addAtC_toC {n : ℕ} (x : Fin n → ℝ) (i : Fin n) (d : ℂ) :
    addAtC (toC x) i d = fun j => (x j : ℂ) + if j = i then d else 0 := by
  funext j
  by_cases hj : j = i
  · subst hj; simp [addAtC, toC]
  · simp [addAtC, toC, Function.update_noteq hj, hj]

/-- The property claim C3 asserts of the three schemes: each gradient
component is the selected difference quotient at the perturbed points of
the claim, and the forward evaluation sequence starts with the base
point, evaluates once per coordinate afterwards, and never revisits the
base point. -/
def scheme_quotient_prop {n : ℕ} (f : (Fin n → ℂ) → ℂ) (x : Fin n → ℝ) (epsilon : ℝ) : Prop :=
  finite_difference_gradient f x epsilon "forward" =
    .ok (fun i =>
      ((f fun j => ((x j + if j = i then epsilon else 0 : ℝ) : ℂ)).re -
        (f fun j => ((x j : ℝ) : ℂ)).re) / epsilon) ∧
  finite_difference_gradient f x epsilon "central" =
    .ok (fun i =>
      ((f fun j => ((x j + if j = i then epsilon else 0 : ℝ) : ℂ)).re -
        (f fun j => ((x j + if j = i then -epsilon else 0 : ℝ) : ℂ)).re) / (2 * epsilon)) ∧
  finite_difference_gradient f x epsilon "complex" =
    .ok (fun i =>
      (f fun j => (x j : ℂ) + if j = i then Complex.I * (epsilon : ℂ) else 0).im / epsilon) ∧
  (forward_eval_points x epsilon).head? = some x ∧
  (forward_eval_points x epsilon).length = n + 1 ∧
  ∀ p ∈ (forward_eval_points x epsilon).tail, p ≠ x

/-- Claim C3: for every point x, ε > 0, and coordinate i, the gradient
component i is the difference quotient of the selected scheme — forward
(f(x+εeᵢ) − f(x))/ε with the base value computed once and shared, central
(f(x+εeᵢ) − f(x−εeᵢ))/(2ε), complex-step Im(f(x+iεeᵢ))/ε. -/
theorem C3_scheme_quotients {n : ℕ} (f : (Fin n → ℂ) → ℂ) (x : Fin n → ℝ) (epsilon : ℝ)
    (hε : 0 < epsilon) : scheme_quotient_prop f x epsilon := by
  refine ⟨?_, ?_, ?_, rfl, ?_, ?_⟩
  · rw [fdg_forward_eq]
    congr 1
    funext i
    rw [toC_addAt, Complex.div_ofReal_re, Complex.sub_re]
    rfl
  · rw [fdg_central_eq]
    congr 1
    funext i
    rw [toC_addAt, toC_addAt, Complex.div_ofReal_re, Complex.sub_re]
  · rw [fdg_complex_eq]
    congr 1
    funext i
    rw [addAtC_toC]
  · simp [forward_eval_points]
  · intro p hp
    simp only [forward_eval_points, List.tail_cons, List.mem_ofFn] at hp
    obtain ⟨i, hi⟩ := hp
    intro hpx
    rw [← hi] at hpx
    have hx := congrFun hpx i
    simp only [addAt, Function.update_same] at hx
    linarith

theorem C3_witness :
    0 < (1 : ℝ) ∧ scheme_quotient_prop (fun p : Fin 1 → ℂ => p 0) (fun _ => 0) 1 :=
  ⟨one_pos, C3_scheme_quotients (fun p : Fin 1 → ℂ => p 0) (fun _ => 0) 1 one_pos⟩

/-- Claim C8: for every affine function f(x) = aᵗx + b, every point x and
every ε > 0, the central-difference gradient is exactly the coefficient
vector a, independent of ε. -/
theorem C8_affine_central_exact {n : ℕ} (a : Fin n → ℝ) (b : ℝ) (x : Fin n → ℝ)
    (epsilon : ℝ) (hε : 0 < epsilon) :
    finite_difference_gradient (fun p => (∑ j, (a j : ℂ) * p j) + (b : ℂ)) x epsilon
      "central" = .ok a := by
  rw [fdg_central_eq]
  congr 1
  funext i
  have hpt : ∀ j : Fin n, toC (addAt x i epsilon) j - toC (addAt x i (-epsilon)) j =
      if j = i then ((2 * epsilon : ℝ) : ℂ) else 0 := by
    intro j
    by_cases hj : j = i
    · subst hj
      simp only [toC, addAt, Function.update_same, if_pos rfl]
      push_cast
      ring
    · simp [toC, addAt, Function.update_noteq hj, hj]
  have hnum : ((∑ j, (a j : ℂ) * toC (addAt x i epsilon) j) + (b : ℂ)) -
      ((∑ j, (a j : ℂ) * toC (addAt x i (-epsilon)) j) + (b : ℂ)) =
      (a i : ℂ) * ((2 * epsilon : ℝ) : ℂ) := by
    have hsplit : ((∑ j, (a j : ℂ) * toC (addAt x i epsilon) j) + (b : ℂ)) -
        ((∑ j, (a j : ℂ) * toC (addAt x i (-epsilon)) j) + (b : ℂ)) =
        ∑ j, ((a j : ℂ) * toC (addAt x i epsilon) j -
          (a j : ℂ) * toC (addAt x i (-epsilon)) j) := by
      rw [Finset.sum_sub_distrib]
      ring
    rw [hsplit]
    have hterm : ∀ j ∈ Finset.univ, ((a j : ℂ) * toC (addAt x i epsilon) j -
        (a j : ℂ) * toC (addAt x i (-epsilon)) j) =
        if j = i then (a i : ℂ) * ((2 * epsilon : ℝ) : ℂ) else 0 := by
      intro j _
      rw [← mul_sub, hpt j]
      by_cases hj : j = i
      · subst hj; simp
      · simp [hj]
    rw [Finset.sum_congr rfl hterm, Finset.sum_ite_eq' Finset.univ i]
    simp
  rw [hnum]
  have hc : ((2 * epsilon : ℝ) : ℂ) ≠ 0 := by
    rw [Complex.ofReal_ne_zero]
    linarith
  rw [mul_div_cancel_right₀ _ hc]
  exact Complex.ofReal_re _

theorem C8_witness :
    finite_difference_gradient
        (fun p : Fin 1 → ℂ => (∑ j, (((fun _ => (2 : ℝ)) j : ℝ) : ℂ) * p j) + ((3 : ℝ) : ℂ))
        (fun _ => 5) 1 "central" = .ok (fun _ => (2 : ℝ)) :=
  C8_affine_central_exact (fun _ => 2) 3 (fun _ => 5) 1 one_pos

/-- Claim C1, amended: when the analytic gradient at x is exactly zero,
check_gradient returns the absolute difference norm as relative_error (not
infinity), and passed is the comparison of that norm against tol (so it can
be True for a small nonzero difference); when the numerical gradient is
also exactly zero the result is (True, 0) for positive tol. -/
theorem C1_zero_reference_fallback {n : ℕ} (f : (Fin n → ℂ) → ℂ)
    (grad_f : (Fin n → ℝ) → Fin n → ℝ) (x : Fin n → ℝ) (epsilon tol : ℝ) (method : String)
    (verbose : Bool) (g : Fin n → ℝ) (r : Bool × ℝ)
    (hg : finite_difference_gradient f x epsilon method = .ok g)
    (ha : grad_f x = fun _ => 0)
    (hr : check_gradient f grad_f x epsilon tol method verbose = .ok r) :
    (r.2 = euclNorm (fun i => 0 - g i) ∧ (r.1 = true ↔ r.2 < tol)) ∧
    ((g = fun _ => 0) → 0 < tol → r = (true, 0)) := by
  unfold check_gradient at hr
  rw [hg] at hr
  simp only [ha, euclNorm_zero_fun, gt_iff_lt, lt_self_iff_false, ite_false,
    Except.ok.injEq] at hr
  subst hr
  refine ⟨⟨rfl, ?_⟩, ?_⟩
  · by_cases h : euclNorm (fun i => (0 : ℝ) - g i) < tol
    · simp [h]
    · simp [h]
  · intro hgz htol
    subst hgz
    simp [euclNorm_zero_fun, htol]

theorem check_gradient_ok {n : ℕ} (f : (Fin n → ℂ) → ℂ)
    (grad_f : (Fin n → ℝ) → Fin n → ℝ) (x : Fin n → ℝ) (epsilon tol : ℝ) (method : String)
    (verbose : Bool) (g : Fin n → ℝ)
    (hg : finite_difference_gradient f x epsilon method = .ok g) :
    check_gradient f grad_f x epsilon tol method verbose =
      .ok (if (if euclNorm (grad_f x) > 0 then
              euclNorm (fun i => grad_f x i - g i) / euclNorm (grad_f x)
            else euclNorm (fun i => grad_f x i - g i)) < tol then true else false,
          if euclNorm (grad_f x) > 0 then
            euclNorm (fun i => grad_f x i - g i) / euclNorm (grad_f x)
          else euclNorm (fun i => grad_f x i - g i)) := by
  unfold check_gradient
  rw [hg]

/-- Claim C1 fails as stated: at f(x) = 1e-5·x₁, x = 0, with the wrong
analytic gradient that is identically zero, the numerical central
difference is 1e-5 ≠ 0, yet check_gradient returns relative_error = 1e-5
(the absolute error, not infinity) and passed = True (1e-5 < tol = 1e-4),
where the claim demands infinity and False. -/
theorem C1_counterexample :
    check_gradient (fun p : Fin 1 → ℂ => ((1e-5 : ℝ) : ℂ) * p 0) (fun _ _ => 0)
        (fun _ => 0) 1e-5 1e-4 "central" true = .ok (true, 1e-5) := by
  have hg : finite_difference_gradient (fun p : Fin 1 → ℂ => ((1e-5 : ℝ) : ℂ) * p 0)
      (fun _ => (0 : ℝ)) 1e-5 "central" = .ok (fun _ => 1e-5) := by
    rw [fdg_central_eq]
    congr 1
    funext i
    have hi : i = 0 := Subsingleton.elim i 0
    subst hi
    simp only [toC, addAt, Function.update_same]
    rw [← Complex.ofReal_mul, ← Complex.ofReal_mul, ← Complex.ofReal_sub,
      Complex.div_ofReal_re, Complex.ofReal_re]
    norm_num
  rw [check_gradient_ok _ _ _ _ _ _ _ _ hg]
  have hnd : euclNorm (fun _ : Fin 1 => (0 : ℝ) - 1e-5) = 1e-5 := by
    simp only [euclNorm, Fin.sum_univ_one]
    rw [show ((0 : ℝ) - 1e-5) ^ 2 = (1e-5 : ℝ) ^ 2 by norm_num]
    exact Real.sqrt_sq (by norm_num)
  rw [show euclNorm ((fun _ _ => (0 : ℝ)) (fun _ : Fin 1 => (0 : ℝ))) = 0 from
    euclNorm_zero_fun]
  rw [if_neg (lt_irrefl (0 : ℝ))]
  rw [show (fun i : Fin 1 => (fun _ _ => (0 : ℝ)) (fun _ : Fin 1 => (0 : ℝ)) i -
    (fun _ : Fin 1 => (1e-5 : ℝ)) i) = (fun _ : Fin 1 => (0 : ℝ) - 1e-5) from rfl, hnd]
  rw [if_pos (by norm_num : (1e-5 : ℝ) < 1e-4)]

theorem cg_zero_fdg : finite_difference_gradient (fun _ : Fin 1 → ℂ => 0)
    (fun _ => (0 : ℝ)) 1 "central" = .ok (fun _ => 0) := by
  rw [fdg_central_eq]
  congr 1
  funext i
  simp

theorem cg_zero_check : check_gradient (fun _ : Fin 1 → ℂ => 0) (fun _ _ => 0)
    (fun _ => (0 : ℝ)) 1 1e-4 "central" true = .ok (true, 0) := by
  rw [check_gradient_ok _ _ _ _ _ _ _ _ cg_zero_fdg]
  rw [show euclNorm ((fun _ _ => (0 : ℝ)) (fun _ : Fin 1 => (0 : ℝ))) = 0 from
    euclNorm_zero_fun]
  rw [if_neg (lt_irrefl (0 : ℝ))]
  rw [show (fun i : Fin 1 => (fun _ _ => (0 : ℝ)) (fun _ : Fin 1 => (0 : ℝ)) i -
    (fun _ : Fin 1 => (0 : ℝ)) i) = (fun _ : Fin 1 => (0 : ℝ)) from by funext i; simp,
    euclNorm_zero_fun]
  rw [if_pos (by norm_num : (0 : ℝ) < 1e-4)]

theorem C1_witness :
    (((true, (0 : ℝ)).2 = euclNorm (fun i : Fin 1 => 0 - (fun _ : Fin 1 => (0 : ℝ)) i) ∧
      ((true, (0 : ℝ)).1 = true ↔ (true, (0 : ℝ)).2 < 1e-4)) ∧
     (((fun _ : Fin 1 => (0 : ℝ)) = fun _ => 0) → (0 : ℝ) < 1e-4 →
       ((true, (0 : ℝ)) : Bool × ℝ) = (true, 0))) :=
  C1_zero_reference_fallback (fun _ : Fin 1 → ℂ => 0) (fun _ _ => 0) (fun _ => 0) 1 1e-4
    "central" true (fun _ => 0) (true, 0) cg_zero_fdg rfl cg_zero_check

/-- Claim C6, amended: estimate_complexity performs no sample-count
validation at all: given fewer than two size/time pairs it still returns an
exponent fit (the numpy minimum-norm least-squares solution for the
rank-deficient regression) rather than raising an InsufficientSamples
error. -/
theorem C6_no_sample_count_check (sizes : List ℕ) (sample_time : ℕ → ℕ → ℝ)
    (n_runs : ℕ) (hlen : sizes.length < 2) :
    ∃ fit, estimate_complexity sizes sample_time n_runs = .ok fit := ⟨_, rfl⟩

/-- Claim C6 fails as stated: a single size/time pair ([2], all run times 1)
produces the exponent fit 0 with no error raised. -/
theorem C6_counterexample :
    estimate_complexity [2] (fun _ _ => 1) 3 = .ok (0, [2], [1]) := by
  have hruns : (List.range 3).map (fun _ => (1 : ℝ)) = [1, 1, 1] := rfl
  have hmed : median [1, 1, 1] = (1 : ℝ) := by
    simp [median, sortReals, insertSorted]
  unfold estimate_complexity
  simp only [List.map_cons, List.map_nil]
  rw [hruns, hmed]
  simp only [Real.log_one, List.zip_cons_cons, List.zip_nil_right]
  unfold lstsq2
  simp only [List.length_cons, List.length_nil, List.map_cons, List.map_nil, List.sum_cons,
    List.sum_nil, List.headD_cons]
  norm_num

theorem C6_witness :
    ([5] : List ℕ).length < 2 ∧
    ∃ fit, estimate_complexity [5] (fun _ _ => 1) 3 = .ok fit :=
  ⟨by decide, C6_no_sample_count_check [5] (fun _ _ => 1) 3 (by decide)⟩

theorem le_foldl_max (l : List ℝ) : ∀ a : ℝ, a ≤ l.foldl max a := by
  induction l with
  | nil => intro a; exact le_refl a
  | cons b t ih => intro a; exact le_trans (le_max_left a b) (ih (max a b))

/-- Claim C10, amended: for every base point at which the analytic gradient
is exactly zero and every n_samples ≥ 1, gradient_consistency_check returns
False regardless of the sampled perturbations, because the non-negative
maximum variation is compared with strict inequality against
10·ε·‖∇f(x)‖ = 0.  (With n_samples = 0 the np.max call raises instead of
returning False.) -/
theorem C10_zero_gradient_never_passes {n : ℕ} (grad_f : (Fin n → ℝ) → Fin n → ℝ)
    (x : Fin n → ℝ) (n_samples : ℕ) (epsilon : ℝ) (randn : ℕ → Fin n → ℝ) (verbose : Bool)
    (hz : grad_f x = fun _ => 0) (hs : 1 ≤ n_samples) :
    gradient_consistency_check grad_f x n_samples epsilon randn verbose = some false := by
  unfold gradient_consistency_check
  simp only []
  cases hcase : (List.range n_samples).map
      (fun k => euclNorm fun i => grad_f (fun j => x j + epsilon * randn k j) i - grad_f x i)
    with
  | nil =>
    exfalso
    have hlen := congrArg List.length hcase
    simp only [List.length_map, List.length_range, List.length_nil] at hlen
    omega
  | cons v vs =>
    show some (if vs.foldl max v < 10 * (epsilon * euclNorm (grad_f x)) then true else false) =
      some false
    have hv : 0 ≤ v := by
      have hvmem : v ∈ (List.range n_samples).map
          (fun k => euclNorm fun i =>
            grad_f (fun j => x j + epsilon * randn k j) i - grad_f x i) := by
        rw [hcase]; exact List.mem_cons_self _ _
      obtain ⟨k, -, hk⟩ := List.mem_map.mp hvmem
      rw [← hk]
      exact euclNorm_nonneg _
    have hmax : 0 ≤ vs.foldl max v := le_trans hv (le_foldl_max vs v)
    have hthresh : 10 * (epsilon * euclNorm (grad_f x)) = 0 := by
      rw [hz, euclNorm_zero_fun]; ring
    rw [hthresh, if_neg (not_lt.mpr hmax)]

/-- Claim C10 fails as stated: with n_samples = 0 the variation list is
empty and np.max raises, so the call does not return False. -/
theorem C10_counterexample :
    gradient_consistency_check (fun _ _ => (0 : ℝ)) (fun _ : Fin 1 => 0) 0 1e-7
      (fun _ _ => 0) true ≠ some false := by
  simp [gradient_consistency_check]

theorem C10_witness :
    ((fun _ _ => (0 : ℝ)) : (Fin 1 → ℝ) → Fin 1 → ℝ) (fun _ => 0) = (fun _ => (0 : ℝ)) ∧
    1 ≤ 1 ∧
    gradient_consistency_check (fun _ _ => (0 : ℝ)) (fun _ : Fin 1 => 0) 1 1e-7
      (fun _ _ => 0) true = some false :=
  ⟨rfl, le_refl 1,
    C10_zero_gradient_never_passes (fun _ _ => 0) (fun _ : Fin 1 => 0) 1 1e-7
      (fun _ _ => 0) true rfl (le_refl 1)⟩

end NM

end
